import Mathlib

/-!
Shallow embedding of the ad-copy-assistant server actions
(src/actions/index.ts) and its astro:db table schema.

Rows are records over String ids, Nat timestamps (Date values) and Int
metrics; the store is a triple of row lists.  Each action is a function
from its parsed input, the request user (Option String, the value of
context.locals.user), the current store, and — where the handler calls
crypto.randomUUID() or new Date() — an explicit fresh id and clock value,
to a pair of the action result (Except over the thrown ActionError) and
the store after the call.  Input validation (the zod schemas, including
the refine clauses) runs before the handler body, as in astro actions.
-/

namespace AdCopyAssistant

structure Campaign where
  id : String
  userId : String
  name : String
  objective : Option String
  productName : Option String
  targetAudience : Option String
  notes : Option String
  createdAt : Nat
  updatedAt : Nat
  deriving Repr, DecidableEq

structure AdCopy where
  id : String
  campaignId : String
  userId : String
  platform : Option String
  headline : Option String
  primaryText : String
  description : Option String
  callToAction : Option String
  tone : Option String
  variantLabel : Option String
  url : Option String
  createdAt : Nat
  updatedAt : Nat
  deriving Repr, DecidableEq

structure PerformanceRecord where
  id : String
  adCopyId : String
  date : Option Nat
  impressions : Option Int
  clicks : Option Int
  conversions : Option Int
  spend : Option Int
  currency : Option String
  notes : Option String
  deriving Repr, DecidableEq

structure DB where
  campaigns : List Campaign
  adCopies : List AdCopy
  performance : List PerformanceRecord
  deriving Repr, DecidableEq

inductive ErrCode where
  | UNAUTHORIZED
  | NOT_FOUND
  | VALIDATION
  deriving Repr, DecidableEq

structure ActionError where
  code : ErrCode
  message : String
  deriving Repr, DecidableEq

/-- requireUser: returns context.locals.user or throws UNAUTHORIZED. -/
def requireUser (user : Option String) : Except ActionError String :=
  match user with
  | none => .error ⟨.UNAUTHORIZED, "You must be signed in to perform this action."⟩
  | some u => .ok u

/-- getOwnedCampaign: select from AdCampaigns where id and userId match,
destructure the first row, throw NOT_FOUND when there is none. -/
def getOwnedCampaign (campaignId userId : String) (d : DB) : Except ActionError Campaign :=
  match (d.campaigns.filter (fun c => c.id == campaignId && c.userId == userId)).head? with
  | some c => .ok c
  | none => .error ⟨.NOT_FOUND, "Campaign not found."⟩

/-- getOwnedAdCopy: select from AdCopies where id and userId match,
destructure the first row, throw NOT_FOUND when there is none. -/
def getOwnedAdCopy (adCopyId userId : String) (d : DB) : Except ActionError AdCopy :=
  match (d.adCopies.filter (fun a => a.id == adCopyId && a.userId == userId)).head? with
  | some a => .ok a
  | none => .error ⟨.NOT_FOUND, "Ad copy not found."⟩

structure CreateCampaignInput where
  name : String
  objective : Option String
  productName : Option String
  targetAudience : Option String
  notes : Option String
  deriving Repr, DecidableEq

/-- zod schema of createCampaign: name is min(1), the rest optional. -/
def validateCreateCampaign (i : CreateCampaignInput) : Except ActionError Unit :=
  if 1 ≤ i.name.length then .ok ()
  else .error ⟨.VALIDATION, "Invalid input."⟩

/-- The values clause of the createCampaign insert. -/
def insertedCampaign (i : CreateCampaignInput) (uid genId : String) (now : Nat) : Campaign :=
  { id := genId, userId := uid, name := i.name, objective := i.objective,
    productName := i.productName, targetAudience := i.targetAudience,
    notes := i.notes, createdAt := now, updatedAt := now }

def createCampaign (i : CreateCampaignInput) (user : Option String) (d : DB)
    (genId : String) (now : Nat) : Except ActionError (Option Campaign) × DB :=
  match validateCreateCampaign i with
  | .error e => (.error e, d)
  | .ok _ =>
    match requireUser user with
    | .error e => (.error e, d)
    | .ok uid =>
      let row : Campaign := insertedCampaign i uid genId now
      (.ok (some row), { d with campaigns := d.campaigns ++ [row] })

structure UpdateCampaignInput where
  id : String
  name : Option String
  objective : Option String
  productName : Option String
  targetAudience : Option String
  notes : Option String
  deriving Repr, DecidableEq

/-- zod schema of updateCampaign: id min(1), name min(1) when present,
then the refine clause requiring at least one optional field. -/
def validateUpdateCampaign (i : UpdateCampaignInput) : Except ActionError Unit :=
  if 1 ≤ i.id.length ∧ ∀ v ∈ i.name, 1 ≤ v.length then
    if i.name.isSome || i.objective.isSome || i.productName.isSome ||
        i.targetAudience.isSome || i.notes.isSome then
      .ok ()
    else .error ⟨.VALIDATION, "At least one field must be provided to update."⟩
  else .error ⟨.VALIDATION, "Invalid input."⟩

/-- The object spread in the updateCampaign set clause: every supplied
field overwrites, every omitted field is left as stored, updatedAt is
stamped with the new Date() taken at the update. -/
def mergeCampaign (i : UpdateCampaignInput) (now : Nat) (c : Campaign) : Campaign :=
  { id := c.id
    userId := c.userId
    name := match i.name with | some v => v | none => c.name
    objective := match i.objective with | some v => some v | none => c.objective
    productName := match i.productName with | some v => some v | none => c.productName
    targetAudience := match i.targetAudience with | some v => some v | none => c.targetAudience
    notes := match i.notes with | some v => some v | none => c.notes
    createdAt := c.createdAt
    updatedAt := now }

def updateCampaign (i : UpdateCampaignInput) (user : Option String) (d : DB)
    (now : Nat) : Except ActionError (Option Campaign) × DB :=
  match validateUpdateCampaign i with
  | .error e => (.error e, d)
  | .ok _ =>
    match requireUser user with
    | .error e => (.error e, d)
    | .ok uid =>
      match getOwnedCampaign i.id uid d with
      | .error e => (.error e, d)
      | .ok _ =>
        (.ok ((d.campaigns.filter (fun c => c.id == i.id)).map (mergeCampaign i now)).head?,
         { d with campaigns :=
            d.campaigns.map (fun c => if c.id == i.id then mergeCampaign i now c else c) })

def listCampaigns (user : Option String) (d : DB) :
    Except ActionError (List Campaign × Nat) × DB :=
  match requireUser user with
  | .error e => (.error e, d)
  | .ok uid =>
    ((fun items => .ok (items, items.length)) (d.campaigns.filter (fun c => c.userId == uid)), d)

structure CreateAdCopyInput where
  campaignId : String
  platform : Option String
  headline : Option String
  primaryText : String
  description : Option String
  callToAction : Option String
  tone : Option String
  variantLabel : Option String
  url : Option String
  deriving Repr, DecidableEq

/-- zod schema of createAdCopy: campaignId and primaryText are min(1). -/
def validateCreateAdCopy (i : CreateAdCopyInput) : Except ActionError Unit :=
  if 1 ≤ i.campaignId.length ∧ 1 ≤ i.primaryText.length then .ok ()
  else .error ⟨.VALIDATION, "Invalid input."⟩

/-- The values clause of the createAdCopy insert. -/
def insertedAdCopy (i : CreateAdCopyInput) (uid genId : String) (now : Nat) : AdCopy :=
  { id := genId, campaignId := i.campaignId, userId := uid,
    platform := i.platform, headline := i.headline,
    primaryText := i.primaryText, description := i.description,
    callToAction := i.callToAction, tone := i.tone,
    variantLabel := i.variantLabel, url := i.url,
    createdAt := now, updatedAt := now }

def createAdCopy (i : CreateAdCopyInput) (user : Option String) (d : DB)
    (genId : String) (now : Nat) : Except ActionError (Option AdCopy) × DB :=
  match validateCreateAdCopy i with
  | .error e => (.error e, d)
  | .ok _ =>
    match requireUser user with
    | .error e => (.error e, d)
    | .ok uid =>
      match getOwnedCampaign i.campaignId uid d with
      | .error e => (.error e, d)
      | .ok _ =>
        let row : AdCopy := insertedAdCopy i uid genId now
        (.ok (some row), { d with adCopies := d.adCopies ++ [row] })

structure UpdateAdCopyInput where
  id : String
  campaignId : String
  platform : Option String
  headline : Option String
  primaryText : Option String
  description : Option String
  callToAction : Option String
  tone : Option String
  variantLabel : Option String
  url : Option String
  deriving Repr, DecidableEq

/-- zod schema of updateAdCopy: id and campaignId are min(1); the refine
clause requires at least one of the eight optional fields. -/
def validateUpdateAdCopy (i : UpdateAdCopyInput) : Except ActionError Unit :=
  if 1 ≤ i.id.length ∧ 1 ≤ i.campaignId.length then
    if i.platform.isSome || i.headline.isSome || i.primaryText.isSome ||
        i.description.isSome || i.callToAction.isSome || i.tone.isSome ||
        i.variantLabel.isSome || i.url.isSome then
      .ok ()
    else .error ⟨.VALIDATION, "At least one field must be provided to update."⟩
  else .error ⟨.VALIDATION, "Invalid input."⟩

/-- The object spread in the updateAdCopy set clause. -/
def mergeAdCopy (i : UpdateAdCopyInput) (now : Nat) (a : AdCopy) : AdCopy :=
  { id := a.id
    campaignId := a.campaignId
    userId := a.userId
    platform := match i.platform with | some v => some v | none => a.platform
    headline := match i.headline with | some v => some v | none => a.headline
    primaryText := match i.primaryText with | some v => v | none => a.primaryText
    description := match i.description with | some v => some v | none => a.description
    callToAction := match i.callToAction with | some v => some v | none => a.callToAction
    tone := match i.tone with | some v => some v | none => a.tone
    variantLabel := match i.variantLabel with | some v => some v | none => a.variantLabel
    url := match i.url with | some v => some v | none => a.url
    createdAt := a.createdAt
    updatedAt := now }

def updateAdCopy (i : UpdateAdCopyInput) (user : Option String) (d : DB)
    (now : Nat) : Except ActionError (Option AdCopy) × DB :=
  match validateUpdateAdCopy i with
  | .error e => (.error e, d)
  | .ok _ =>
    match requireUser user with
    | .error e => (.error e, d)
    | .ok uid =>
      match getOwnedCampaign i.campaignId uid d with
      | .error e => (.error e, d)
      | .ok _ =>
        match (d.adCopies.filter (fun a =>
            a.id == i.id && a.campaignId == i.campaignId && a.userId == uid)).head? with
        | none => (.error ⟨.NOT_FOUND, "Ad copy not found."⟩, d)
        | some _ =>
          (.ok ((d.adCopies.filter (fun a => a.id == i.id)).map (mergeAdCopy i now)).head?,
           { d with adCopies :=
              d.adCopies.map (fun a => if a.id == i.id then mergeAdCopy i now a else a) })

structure DeleteAdCopyInput where
  id : String
  campaignId : String
  deriving Repr, DecidableEq

def validateDeleteAdCopy (i : DeleteAdCopyInput) : Except ActionError Unit :=
  if 1 ≤ i.id.length ∧ 1 ≤ i.campaignId.length then .ok ()
  else .error ⟨.VALIDATION, "Invalid input."⟩

/-- The delete predicate of deleteAdCopy: id, campaignId and userId all
match. -/
def deleteAdCopyPred (i : DeleteAdCopyInput) (uid : String) (a : AdCopy) : Bool :=
  a.id == i.id && a.campaignId == i.campaignId && a.userId == uid

def deleteAdCopy (i : DeleteAdCopyInput) (user : Option String) (d : DB) :
    Except ActionError Unit × DB :=
  match validateDeleteAdCopy i with
  | .error e => (.error e, d)
  | .ok _ =>
    match requireUser user with
    | .error e => (.error e, d)
    | .ok uid =>
      match getOwnedCampaign i.campaignId uid d with
      | .error e => (.error e, d)
      | .ok _ =>
        let d2 : DB :=
          { d with adCopies := d.adCopies.filter (fun a => !(deleteAdCopyPred i uid a)) }
        if (d.adCopies.filter (deleteAdCopyPred i uid)).length == 0 then
          (.error ⟨.NOT_FOUND, "Ad copy not found."⟩, d2)
        else (.ok (), d2)

structure ListAdCopiesInput where
  campaignId : String
  deriving Repr, DecidableEq

def listAdCopies (i : ListAdCopiesInput) (user : Option String) (d : DB) :
    Except ActionError (List AdCopy × Nat) × DB :=
  if 1 ≤ i.campaignId.length then
    match requireUser user with
    | .error e => (.error e, d)
    | .ok uid =>
      match getOwnedCampaign i.campaignId uid d with
      | .error e => (.error e, d)
      | .ok _ =>
        ((fun items => .ok (items, items.length))
          (d.adCopies.filter (fun a => a.campaignId == i.campaignId && a.userId == uid)), d)
  else (.error ⟨.VALIDATION, "Invalid input."⟩, d)

structure LogAdPerformanceInput where
  adCopyId : String
  date : Option Nat
  impressions : Option Int
  clicks : Option Int
  conversions : Option Int
  spend : Option Int
  currency : Option String
  notes : Option String
  deriving Repr, DecidableEq

/-- The values clause of the logAdPerformance insert: note that date is
defaulted with the nullish coalescing to the current Date when omitted. -/
def insertedPerformance (i : LogAdPerformanceInput) (genId : String) (now : Nat) :
    PerformanceRecord :=
  { id := genId, adCopyId := i.adCopyId,
    date := some (match i.date with | some v => v | none => now),
    impressions := i.impressions, clicks := i.clicks,
    conversions := i.conversions, spend := i.spend,
    currency := i.currency, notes := i.notes }

def logAdPerformance (i : LogAdPerformanceInput) (user : Option String) (d : DB)
    (genId : String) (now : Nat) : Except ActionError (Option PerformanceRecord) × DB :=
  if 1 ≤ i.adCopyId.length then
    match requireUser user with
    | .error e => (.error e, d)
    | .ok uid =>
      match getOwnedAdCopy i.adCopyId uid d with
      | .error e => (.error e, d)
      | .ok adCopy =>
        match getOwnedCampaign adCopy.campaignId uid d with
        | .error e => (.error e, d)
        | .ok _ =>
          let row : PerformanceRecord := insertedPerformance i genId now
          (.ok (some row), { d with performance := d.performance ++ [row] })
  else (.error ⟨.VALIDATION, "Invalid input."⟩, d)

structure ListAdPerformanceInput where
  adCopyId : String
  deriving Repr, DecidableEq

def listAdPerformance (i : ListAdPerformanceInput) (user : Option String) (d : DB) :
    Except ActionError (List PerformanceRecord × Nat) × DB :=
  if 1 ≤ i.adCopyId.length then
    match requireUser user with
    | .error e => (.error e, d)
    | .ok uid =>
      match getOwnedAdCopy i.adCopyId uid d with
      | .error e => (.error e, d)
      | .ok adCopy =>
        match getOwnedCampaign adCopy.campaignId uid d with
        | .error e => (.error e, d)
        | .ok _ =>
          ((fun items => .ok (items, items.length))
            (d.performance.filter (fun p => p.adCopyId == i.adCopyId)), d)
  else (.error ⟨.VALIDATION, "Invalid input."⟩, d)

/-! Section: Verification-side definitions -/

/-- Pointwise relation between the rows of a table before and after an
update statement. -/
def rowWise {α : Type} (P : α → α → Prop) (l1 l2 : List α) : Prop :=
  l1.length = l2.length ∧
    ∀ k (h1 : k < l1.length) (h2 : k < l2.length), P (l1.get ⟨k, h1⟩) (l2.get ⟨k, h2⟩)

/-- Field-level specification of one AdCampaigns row across an
updateCampaign statement: a row whose id is not targeted is untouched; in
the targeted row every omitted field keeps its stored value, every
supplied field takes the supplied value, id, userId and createdAt are
untouched and updatedAt is stamped with the update clock. -/
def campaignRowSpec (i : UpdateCampaignInput) (now : Nat) (old new : Campaign) : Prop :=
  if old.id = i.id then
    (i.name = none → new.name = old.name) ∧
    (i.objective = none → new.objective = old.objective) ∧
    (i.productName = none → new.productName = old.productName) ∧
    (i.targetAudience = none → new.targetAudience = old.targetAudience) ∧
    (i.notes = none → new.notes = old.notes) ∧
    (∀ v, i.name = some v → new.name = v) ∧
    (∀ v, i.objective = some v → new.objective = some v) ∧
    (∀ v, i.productName = some v → new.productName = some v) ∧
    (∀ v, i.targetAudience = some v → new.targetAudience = some v) ∧
    (∀ v, i.notes = some v → new.notes = some v) ∧
    new.id = old.id ∧ new.userId = old.userId ∧ new.createdAt = old.createdAt ∧
    new.updatedAt = now ∧ (old.updatedAt ≤ now → old.updatedAt ≤ new.updatedAt)
  else new = old

/-- Field-level specification of one AdCopies row across an updateAdCopy
statement. -/
def adCopyRowSpec (i : UpdateAdCopyInput) (now : Nat) (old new : AdCopy) : Prop :=
  if old.id = i.id then
    (i.platform = none → new.platform = old.platform) ∧
    (i.headline = none → new.headline = old.headline) ∧
    (i.primaryText = none → new.primaryText = old.primaryText) ∧
    (i.description = none → new.description = old.description) ∧
    (i.callToAction = none → new.callToAction = old.callToAction) ∧
    (i.tone = none → new.tone = old.tone) ∧
    (i.variantLabel = none → new.variantLabel = old.variantLabel) ∧
    (i.url = none → new.url = old.url) ∧
    (∀ v, i.platform = some v → new.platform = some v) ∧
    (∀ v, i.headline = some v → new.headline = some v) ∧
    (∀ v, i.primaryText = some v → new.primaryText = v) ∧
    (∀ v, i.description = some v → new.description = some v) ∧
    (∀ v, i.callToAction = some v → new.callToAction = some v) ∧
    (∀ v, i.tone = some v → new.tone = some v) ∧
    (∀ v, i.variantLabel = some v → new.variantLabel = some v) ∧
    (∀ v, i.url = some v → new.url = some v) ∧
    new.id = old.id ∧ new.campaignId = old.campaignId ∧ new.userId = old.userId ∧
    new.createdAt = old.createdAt ∧
    new.updatedAt = now ∧ (old.updatedAt ≤ now → old.updatedAt ≤ new.updatedAt)
  else new = old

/-- Concrete store used by the witnesses: one campaign of user u1 with
one ad copy, no performance rows. -/
def cW : Campaign :=
  { id := "c1", userId := "u1", name := "Spring Sale", objective := none,
    productName := none, targetAudience := none, notes := none,
    createdAt := 1, updatedAt := 1 }

def aW : AdCopy :=
  { id := "a1", campaignId := "c1", userId := "u1", platform := none,
    headline := none, primaryText := "Save big", description := none,
    callToAction := none, tone := none, variantLabel := none, url := none,
    createdAt := 1, updatedAt := 1 }

def dbW : DB := { campaigns := [cW], adCopies := [aW], performance := [] }

/-- Concrete inputs used by the witnesses and counterexamples. -/
def createCampaignInW : CreateCampaignInput :=
  { name := "Spring Sale", objective := none, productName := none,
    targetAudience := none, notes := none }

def updateCampaignInW : UpdateCampaignInput :=
  { id := "c1", name := some "Summer Sale", objective := none, productName := none,
    targetAudience := none, notes := none }

def emptyUpdateCampaignInW : UpdateCampaignInput :=
  { id := "c1", name := none, objective := none, productName := none,
    targetAudience := none, notes := none }

def createAdCopyInW : CreateAdCopyInput :=
  { campaignId := "c1", platform := none, headline := none, primaryText := "Save big",
    description := none, callToAction := none, tone := none, variantLabel := none,
    url := none }

def updateAdCopyInW : UpdateAdCopyInput :=
  { id := "a1", campaignId := "c1", platform := some "google", headline := none,
    primaryText := none, description := none, callToAction := none, tone := none,
    variantLabel := none, url := none }

def emptyUpdateAdCopyInW : UpdateAdCopyInput :=
  { id := "a1", campaignId := "c1", platform := none, headline := none,
    primaryText := none, description := none, callToAction := none, tone := none,
    variantLabel := none, url := none }

def missingUpdateAdCopyInW : UpdateAdCopyInput :=
  { id := "a9", campaignId := "c9", platform := some "google", headline := none,
    primaryText := none, description := none, callToAction := none, tone := none,
    variantLabel := none, url := none }

def deleteAdCopyInW : DeleteAdCopyInput := { id := "a1", campaignId := "c1" }

def logAdPerformanceInW : LogAdPerformanceInput :=
  { adCopyId := "a1", date := none, impressions := some 100, clicks := none,
    conversions := none, spend := none, currency := none, notes := none }

def listAdPerformanceInW : ListAdPerformanceInput := { adCopyId := "a1" }

/-- Second campaign of the same user, with no ad copies, for the
mismatched-campaign scenario. -/
def cW2 : Campaign :=
  { id := "c2", userId := "u1", name := "Fall Sale", objective := none,
    productName := none, targetAudience := none, notes := none,
    createdAt := 2, updatedAt := 2 }

def dbW2 : DB := { campaigns := [cW, cW2], adCopies := [aW], performance := [] }

/-- Update input naming an owned ad copy under the wrong (but owned)
campaign. -/
def mismatchUpdateAdCopyInW : UpdateAdCopyInput :=
  { id := "a1", campaignId := "c2", platform := some "google", headline := none,
    primaryText := none, description := none, callToAction := none, tone := none,
    variantLabel := none, url := none }

/-! Section: Helper lemmas about the guards and list filtering -/

theorem filter_head_some {α : Type} (p : α → Bool) (l : List α) (a : α)
    (ha : a ∈ l) (hp : p a = true) :
    ∃ b, (l.filter p).head? = some b ∧ b ∈ l ∧ p b = true := by
  cases hh : (l.filter p).head? with
  | some b =>
    have hb : b ∈ l.filter p := List.mem_of_mem_head? hh
    rw [List.mem_filter] at hb
    exact ⟨b, rfl, hb.1, hb.2⟩
  | none =>
    rw [List.head?_eq_none_iff, List.filter_eq_nil_iff] at hh
    exact absurd hp (hh a ha)

theorem getOwnedCampaign_ok (cid uid : String) (d : DB) (c : Campaign)
    (hc : c ∈ d.campaigns) (h1 : c.id = cid) (h2 : c.userId = uid) :
    ∃ b, getOwnedCampaign cid uid d = .ok b ∧ b ∈ d.campaigns ∧ b.id = cid ∧ b.userId = uid := by
  obtain ⟨b, hb, hbl, hbp⟩ :=
    filter_head_some (fun c => c.id == cid && c.userId == uid) d.campaigns c hc
      (by simp [h1, h2])
  simp only [Bool.and_eq_true, beq_iff_eq] at hbp
  exact ⟨b, by simp [getOwnedCampaign, hb], hbl, hbp.1, hbp.2⟩

theorem getOwnedCampaign_fail (cid uid : String) (d : DB)
    (h : ∀ c ∈ d.campaigns, c.id = cid → c.userId ≠ uid) :
    getOwnedCampaign cid uid d = .error ⟨.NOT_FOUND, "Campaign not found."⟩ := by
  have hf : d.campaigns.filter (fun c => c.id == cid && c.userId == uid) = [] := by
    rw [List.filter_eq_nil_iff]
    intro c hc
    simp only [Bool.and_eq_true, beq_iff_eq, not_and]
    exact h c hc
  simp [getOwnedCampaign, hf]

theorem getOwnedAdCopy_ok (aid uid : String) (d : DB) (a : AdCopy)
    (ha : a ∈ d.adCopies) (h1 : a.id = aid) (h2 : a.userId = uid) :
    ∃ b, getOwnedAdCopy aid uid d = .ok b ∧ b ∈ d.adCopies ∧ b.id = aid ∧ b.userId = uid := by
  obtain ⟨b, hb, hbl, hbp⟩ :=
    filter_head_some (fun a => a.id == aid && a.userId == uid) d.adCopies a ha
      (by simp [h1, h2])
  simp only [Bool.and_eq_true, beq_iff_eq] at hbp
  exact ⟨b, by simp [getOwnedAdCopy, hb], hbl, hbp.1, hbp.2⟩

theorem getOwnedAdCopy_fail (aid uid : String) (d : DB)
    (h : ∀ a ∈ d.adCopies, a.id = aid → a.userId ≠ uid) :
    getOwnedAdCopy aid uid d = .error ⟨.NOT_FOUND, "Ad copy not found."⟩ := by
  have hf : d.adCopies.filter (fun a => a.id == aid && a.userId == uid) = [] := by
    rw [List.filter_eq_nil_iff]
    intro a ha
    simp only [Bool.and_eq_true, beq_iff_eq, not_and]
    exact h a ha
  simp [getOwnedAdCopy, hf]

/-! Section: C3: empty sparse update is rejected by validation -/

/-- C3 counterexample: the validation message produced by the code carries
a trailing period, so it is not the string the claim states. -/
theorem C3_counterexample :
    updateCampaign emptyUpdateCampaignInW (some "u1") dbW 5
      = (.error ⟨.VALIDATION, "At least one field must be provided to update."⟩, dbW) ∧
    ("At least one field must be provided to update." : String) ≠
      "At least one field must be provided to update" :=
  ⟨rfl, by decide⟩

/-- Claim C3 (amended): an updateCampaign or updateAdCopy call with every
optional field omitted and well-formed ids fails at the zod refine stage
with a VALIDATION error whose message is the string
"At least one field must be provided to update." (trailing period), for
any request user, and the store is returned unchanged. -/
theorem C3_empty_update_rejected (d : DB) (i : UpdateCampaignInput) (j : UpdateAdCopyInput)
    (user : Option String) (now : Nat)
    (hi1 : 1 ≤ i.id.length)
    (hin : i.name = none) (hio : i.objective = none) (hip : i.productName = none)
    (hit : i.targetAudience = none) (hinote : i.notes = none)
    (hj1 : 1 ≤ j.id.length) (hj2 : 1 ≤ j.campaignId.length)
    (hjp : j.platform = none) (hjh : j.headline = none) (hjpt : j.primaryText = none)
    (hjd : j.description = none) (hjc : j.callToAction = none) (hjt : j.tone = none)
    (hjv : j.variantLabel = none) (hjurl : j.url = none) :
    updateCampaign i user d now
      = (.error ⟨.VALIDATION, "At least one field must be provided to update."⟩, d) ∧
    updateAdCopy j user d now
      = (.error ⟨.VALIDATION, "At least one field must be provided to update."⟩, d) := by
  constructor
  · simp [updateCampaign, validateUpdateCampaign, hi1, hin, hio, hip, hit, hinote]
  · simp [updateAdCopy, validateUpdateAdCopy, hj1, hj2, hjp, hjh, hjpt, hjd, hjc,
      hjt, hjv, hjurl]

theorem C3_empty_update_rejected_witness :
    updateCampaign emptyUpdateCampaignInW none dbW 9
      = (.error ⟨.VALIDATION, "At least one field must be provided to update."⟩, dbW) :=
  (C3_empty_update_rejected dbW emptyUpdateCampaignInW emptyUpdateAdCopyInW
    none 9 (by decide) rfl rfl rfl rfl rfl (by decide) (by decide)
    rfl rfl rfl rfl rfl rfl rfl rfl).1

/-! Section: C7: listCampaigns is scoped to the requesting user -/

/-- Claim C7: a stored campaign created by (owned by) user u is included
in the items returned by listCampaigns under the identity u, with total
equal to the number of items, and is not included under any other
identity. -/
theorem C7_list_campaigns_ownership (d : DB) (u u2 : String) (c : Campaign)
    (hc : c ∈ d.campaigns) (hcu : c.userId = u) (hne : u2 ≠ u) :
    (∃ items, (listCampaigns (some u) d).1 = .ok (items, items.length) ∧ c ∈ items) ∧
    (∃ items, (listCampaigns (some u2) d).1 = .ok (items, items.length) ∧ c ∉ items) := by
  constructor
  · refine ⟨d.campaigns.filter (fun x => x.userId == u), rfl, ?_⟩
    exact List.mem_filter.mpr ⟨hc, by simp [hcu]⟩
  · refine ⟨d.campaigns.filter (fun x => x.userId == u2), rfl, ?_⟩
    intro hmem
    have := (List.mem_filter.mp hmem).2
    rw [beq_iff_eq] at this
    exact hne (hcu ▸ this).symm

theorem C7_list_campaigns_ownership_witness :
    ∃ items, (listCampaigns (some "u1") dbW).1 = .ok (items, items.length) ∧ cW ∈ items :=
  (C7_list_campaigns_ownership dbW "u1" "u2" cW (by simp [dbW]) rfl (by decide)).1

/-! Section: C8: every operation requires an authenticated user -/

/-- Claim C8: each of the nine operations, called with no request user
and an input that passes its zod schema, fails UNAUTHORIZED and the
store is returned unchanged. -/
theorem C8_unauthorized (d : DB) (i1 : CreateCampaignInput) (i2 : UpdateCampaignInput)
    (i3 : CreateAdCopyInput) (i4 : UpdateAdCopyInput) (i5 : DeleteAdCopyInput)
    (i6 : ListAdCopiesInput) (i7 : LogAdPerformanceInput) (i8 : ListAdPerformanceInput)
    (genId : String) (now : Nat)
    (h1 : validateCreateCampaign i1 = .ok ()) (h2 : validateUpdateCampaign i2 = .ok ())
    (h3 : validateCreateAdCopy i3 = .ok ()) (h4 : validateUpdateAdCopy i4 = .ok ())
    (h5 : validateDeleteAdCopy i5 = .ok ()) (h6 : 1 ≤ i6.campaignId.length)
    (h7 : 1 ≤ i7.adCopyId.length) (h8 : 1 ≤ i8.adCopyId.length) :
    createCampaign i1 none d genId now
        = (.error ⟨.UNAUTHORIZED, "You must be signed in to perform this action."⟩, d) ∧
    updateCampaign i2 none d now
        = (.error ⟨.UNAUTHORIZED, "You must be signed in to perform this action."⟩, d) ∧
    listCampaigns none d
        = (.error ⟨.UNAUTHORIZED, "You must be signed in to perform this action."⟩, d) ∧
    createAdCopy i3 none d genId now
        = (.error ⟨.UNAUTHORIZED, "You must be signed in to perform this action."⟩, d) ∧
    updateAdCopy i4 none d now
        = (.error ⟨.UNAUTHORIZED, "You must be signed in to perform this action."⟩, d) ∧
    deleteAdCopy i5 none d
        = (.error ⟨.UNAUTHORIZED, "You must be signed in to perform this action."⟩, d) ∧
    listAdCopies i6 none d
        = (.error ⟨.UNAUTHORIZED, "You must be signed in to perform this action."⟩, d) ∧
    logAdPerformance i7 none d genId now
        = (.error ⟨.UNAUTHORIZED, "You must be signed in to perform this action."⟩, d) ∧
    listAdPerformance i8 none d
        = (.error ⟨.UNAUTHORIZED, "You must be signed in to perform this action."⟩, d) := by
  refine ⟨?_, ?_, ?_, ?_, ?_, ?_, ?_, ?_, ?_⟩
  · simp [createCampaign, h1, requireUser]
  · simp [updateCampaign, h2, requireUser]
  · simp [listCampaigns, requireUser]
  · simp [createAdCopy, h3, requireUser]
  · simp [updateAdCopy, h4, requireUser]
  · simp [deleteAdCopy, h5, requireUser]
  · simp [listAdCopies, h6, requireUser]
  · simp [logAdPerformance, h7, requireUser]
  · simp [listAdPerformance, h8, requireUser]

theorem C8_unauthorized_witness :
    listCampaigns none dbW
      = (.error ⟨.UNAUTHORIZED, "You must be signed in to perform this action."⟩, dbW) :=
  (C8_unauthorized dbW createCampaignInW updateCampaignInW createAdCopyInW
    updateAdCopyInW deleteAdCopyInW ⟨"c1"⟩ logAdPerformanceInW listAdPerformanceInW
    "g1" 3 rfl rfl rfl rfl rfl (by decide) (by decide) (by decide)).2.2.1

/-! Section: C1: cross-user mutations fail NOT_FOUND with no store change -/

/-- Claim C1: every mutating operation (updateCampaign, createAdCopy,
updateAdCopy, deleteAdCopy, logAdPerformance) invoked by u2 on a target
whose ownership chain belongs to a different user u1 fails with the same
NOT_FOUND error value produced when the target id does not exist, and the
store is returned unchanged — no row inserted, updated or deleted. -/
theorem C1_cross_user_mutation_not_found (d : DB) (u1 u2 cid aid genId : String)
    (now : Nat) (hne : u2 ≠ u1)
    (hcamp : ∀ c ∈ d.campaigns, c.id = cid → c.userId = u1)
    (hcopy : ∀ a ∈ d.adCopies, a.id = aid → a.userId = u1)
    (iu : UpdateCampaignInput) (hiu : iu.id = cid)
    (ic : CreateAdCopyInput) (hic : ic.campaignId = cid)
    (ju : UpdateAdCopyInput) (hju : ju.campaignId = cid)
    (idel : DeleteAdCopyInput) (hidel : idel.campaignId = cid)
    (ip : LogAdPerformanceInput) (hip : ip.adCopyId = aid)
    (hv1 : validateUpdateCampaign iu = .ok ())
    (hv2 : validateCreateAdCopy ic = .ok ())
    (hv3 : validateUpdateAdCopy ju = .ok ())
    (hv4 : validateDeleteAdCopy idel = .ok ())
    (hv5 : 1 ≤ ip.adCopyId.length) :
    updateCampaign iu (some u2) d now
        = (.error ⟨.NOT_FOUND, "Campaign not found."⟩, d) ∧
    createAdCopy ic (some u2) d genId now
        = (.error ⟨.NOT_FOUND, "Campaign not found."⟩, d) ∧
    updateAdCopy ju (some u2) d now
        = (.error ⟨.NOT_FOUND, "Campaign not found."⟩, d) ∧
    deleteAdCopy idel (some u2) d
        = (.error ⟨.NOT_FOUND, "Campaign not found."⟩, d) ∧
    logAdPerformance ip (some u2) d genId now
        = (.error ⟨.NOT_FOUND, "Ad copy not found."⟩, d) := by
  have hfc : getOwnedCampaign cid u2 d = .error ⟨.NOT_FOUND, "Campaign not found."⟩ :=
    getOwnedCampaign_fail cid u2 d (fun c hc hid => by
      rw [hcamp c hc hid]; exact Ne.symm hne)
  have hfa : getOwnedAdCopy aid u2 d = .error ⟨.NOT_FOUND, "Ad copy not found."⟩ :=
    getOwnedAdCopy_fail aid u2 d (fun a ha hid => by
      rw [hcopy a ha hid]; exact Ne.symm hne)
  refine ⟨?_, ?_, ?_, ?_, ?_⟩
  · simp [updateCampaign, hv1, requireUser, hiu, hfc]
  · simp [createAdCopy, hv2, requireUser, hic, hfc]
  · simp [updateAdCopy, hv3, requireUser, hju, hfc]
  · simp [deleteAdCopy, hv4, requireUser, hidel, hfc]
  · rw [hip] at hv5
    simp [logAdPerformance, requireUser, hip, hfa]
    omega

theorem C1_cross_user_mutation_not_found_witness :
    updateCampaign updateCampaignInW (some "u2") dbW 7
      = (.error ⟨.NOT_FOUND, "Campaign not found."⟩, dbW) :=
  (C1_cross_user_mutation_not_found dbW "u1" "u2" "c1" "a1" "g1" 7 (by decide)
    (by decide) (by decide) updateCampaignInW rfl createAdCopyInW rfl
    updateAdCopyInW rfl deleteAdCopyInW rfl logAdPerformanceInW rfl
    rfl rfl rfl rfl (by decide)).1

/-! Section: C9: creates return the inserted row with equal timestamps -/

/-- Claim C9: a successful createCampaign or createAdCopy appends exactly
one row and returns that very row, its createdAt and updatedAt both equal
to the operation clock, its id the freshly generated one, unique in the
resulting table when the generated id was fresh. -/
theorem C9_create_returns_inserted (d : DB) (i1 : CreateCampaignInput)
    (i3 : CreateAdCopyInput) (u genId1 genId3 : String) (now1 now3 : Nat)
    (hv1 : validateCreateCampaign i1 = .ok ())
    (hf1 : ∀ c ∈ d.campaigns, c.id ≠ genId1)
    (hv3 : validateCreateAdCopy i3 = .ok ())
    (c0 : Campaign) (hc0 : c0 ∈ d.campaigns) (hc01 : c0.id = i3.campaignId)
    (hc02 : c0.userId = u)
    (hf3 : ∀ a ∈ d.adCopies, a.id ≠ genId3) :
    (∃ row : Campaign,
      createCampaign i1 (some u) d genId1 now1
          = (.ok (some row), { d with campaigns := d.campaigns ++ [row] }) ∧
      row.id = genId1 ∧ row.createdAt = now1 ∧ row.updatedAt = now1 ∧
      (∀ c ∈ d.campaigns ++ [row], c.id = genId1 → c = row)) ∧
    (∃ row : AdCopy,
      createAdCopy i3 (some u) d genId3 now3
          = (.ok (some row), { d with adCopies := d.adCopies ++ [row] }) ∧
      row.id = genId3 ∧ row.campaignId = i3.campaignId ∧
      row.createdAt = now3 ∧ row.updatedAt = now3 ∧
      (∀ a ∈ d.adCopies ++ [row], a.id = genId3 → a = row)) := by
  obtain ⟨b, hb, -⟩ := getOwnedCampaign_ok i3.campaignId u d c0 hc0 hc01 hc02
  constructor
  · refine ⟨insertedCampaign i1 u genId1 now1, ?_, rfl, rfl, rfl, ?_⟩
    · simp [createCampaign, hv1, requireUser]
    · intro c hcmem hcid
      rcases List.mem_append.mp hcmem with h | h
      · exact absurd hcid (hf1 c h)
      · simpa using h
  · refine ⟨insertedAdCopy i3 u genId3 now3, ?_, rfl, rfl, rfl, rfl, ?_⟩
    · simp [createAdCopy, hv3, requireUser, hb]
    · intro a hamem haid
      rcases List.mem_append.mp hamem with h | h
      · exact absurd haid (hf3 a h)
      · simpa using h

theorem C9_create_returns_inserted_witness :
    ∃ row : Campaign,
      createCampaign createCampaignInW (some "u1") dbW "g1" 7
          = (.ok (some row), { dbW with campaigns := dbW.campaigns ++ [row] }) ∧
      row.id = "g1" ∧ row.createdAt = 7 ∧ row.updatedAt = 7 ∧
      (∀ c ∈ dbW.campaigns ++ [row], c.id = "g1" → c = row) :=
  (C9_create_returns_inserted dbW createCampaignInW createAdCopyInW "u1" "g1" "g2"
    7 8 rfl (by decide) rfl cW (by simp [dbW]) rfl rfl (by decide)).1

/-! Section: C2: sparse update merges only the supplied fields -/

theorem mergeCampaign_rowSpec (i : UpdateCampaignInput) (now : Nat) (c : Campaign)
    (h : c.id = i.id) : campaignRowSpec i now c (mergeCampaign i now c) := by
  unfold campaignRowSpec
  rw [if_pos h]
  refine ⟨?_, ?_, ?_, ?_, ?_, ?_, ?_, ?_, ?_, ?_, rfl, rfl, rfl, rfl, ?_⟩ <;>
    intros <;> simp_all [mergeCampaign]

theorem mergeAdCopy_rowSpec (i : UpdateAdCopyInput) (now : Nat) (a : AdCopy)
    (h : a.id = i.id) : adCopyRowSpec i now a (mergeAdCopy i now a) := by
  unfold adCopyRowSpec
  rw [if_pos h]
  refine ⟨?_, ?_, ?_, ?_, ?_, ?_, ?_, ?_, ?_, ?_, ?_, ?_, ?_, ?_, ?_, ?_,
    rfl, rfl, rfl, rfl, rfl, ?_⟩ <;> intros <;> simp_all [mergeAdCopy]

theorem rowWise_update_map {α : Type} (P : α → α → Prop) (f : α → α) (l : List α)
    (hP : ∀ x ∈ l, P x (f x)) : rowWise P l (l.map f) := by
  refine ⟨by simp, ?_⟩
  intro k h1 h2
  have hg : (l.map f).get ⟨k, h2⟩ = f (l.get ⟨k, h1⟩) := by simp
  rw [hg]
  exact hP _ (l.get_mem k h1)

/-- Claim C2: an updateCampaign (resp. updateAdCopy) with only a subset
of the optional fields supplied succeeds, leaves every row with a
different id untouched, and on every row with the targeted id keeps each
unsupplied field at its stored value, sets each supplied field to the
supplied value, and stamps updatedAt with the update clock — hence to a
value at least the pre-update updatedAt whenever the clock has not gone
backwards; the other two tables are untouched. -/
theorem C2_sparse_update_frame (d : DB) (i : UpdateCampaignInput) (j : UpdateAdCopyInput)
    (u : String) (now : Nat)
    (hvi : validateUpdateCampaign i = .ok ())
    (ci : Campaign) (hci : ci ∈ d.campaigns) (hci1 : ci.id = i.id) (hci2 : ci.userId = u)
    (hvj : validateUpdateAdCopy j = .ok ())
    (cj : Campaign) (hcj : cj ∈ d.campaigns) (hcj1 : cj.id = j.campaignId)
    (hcj2 : cj.userId = u)
    (aj : AdCopy) (haj : aj ∈ d.adCopies) (haj1 : aj.id = j.id)
    (haj2 : aj.campaignId = j.campaignId) (haj3 : aj.userId = u) :
    ((∃ x, (updateCampaign i (some u) d now).1 = .ok x) ∧
     rowWise (campaignRowSpec i now) d.campaigns
       (updateCampaign i (some u) d now).2.campaigns ∧
     (updateCampaign i (some u) d now).2.adCopies = d.adCopies ∧
     (updateCampaign i (some u) d now).2.performance = d.performance) ∧
    ((∃ x, (updateAdCopy j (some u) d now).1 = .ok x) ∧
     rowWise (adCopyRowSpec j now) d.adCopies
       (updateAdCopy j (some u) d now).2.adCopies ∧
     (updateAdCopy j (some u) d now).2.campaigns = d.campaigns ∧
     (updateAdCopy j (some u) d now).2.performance = d.performance) := by
  obtain ⟨b1, hb1, -⟩ := getOwnedCampaign_ok i.id u d ci hci hci1 hci2
  obtain ⟨b2, hb2, -⟩ := getOwnedCampaign_ok j.campaignId u d cj hcj hcj1 hcj2
  obtain ⟨b3, hb3, -⟩ := filter_head_some
    (fun a => a.id == j.id && a.campaignId == j.campaignId && a.userId == u)
    d.adCopies aj haj (by simp [haj1, haj2, haj3])
  have hredc : updateCampaign i (some u) d now
      = (.ok ((d.campaigns.filter (fun c => c.id == i.id)).map (mergeCampaign i now)).head?,
          { d with campaigns :=
             d.campaigns.map (fun c => if c.id == i.id then mergeCampaign i now c else c) }) := by
    simp [updateCampaign, hvi, requireUser, hb1]
  have hreda : updateAdCopy j (some u) d now
      = (.ok ((d.adCopies.filter (fun a => a.id == j.id)).map (mergeAdCopy j now)).head?,
          { d with adCopies :=
             d.adCopies.map (fun a => if a.id == j.id then mergeAdCopy j now a else a) }) := by
    simp [updateAdCopy, hvj, requireUser, hb2, hb3]
  refine ⟨⟨⟨_, by rw [hredc]⟩, ?_, by rw [hredc], by rw [hredc]⟩,
    ⟨⟨_, by rw [hreda]⟩, ?_, by rw [hreda], by rw [hreda]⟩⟩
  · rw [hredc]
    refine rowWise_update_map _ _ _ ?_
    intro x hx
    by_cases hxid : x.id = i.id
    · simpa [hxid] using mergeCampaign_rowSpec i now x hxid
    · simp [campaignRowSpec, hxid]
  · rw [hreda]
    refine rowWise_update_map _ _ _ ?_
    intro x hx
    by_cases hxid : x.id = j.id
    · simpa [hxid] using mergeAdCopy_rowSpec j now x hxid
    · simp [adCopyRowSpec, hxid]

theorem C2_sparse_update_frame_witness :
    (∃ x, (updateCampaign updateCampaignInW (some "u1") dbW 5).1 = .ok x) ∧
    rowWise (campaignRowSpec updateCampaignInW 5) dbW.campaigns
      (updateCampaign updateCampaignInW (some "u1") dbW 5).2.campaigns :=
  ⟨(C2_sparse_update_frame dbW updateCampaignInW updateAdCopyInW "u1" 5 rfl cW
      (by simp [dbW]) rfl rfl rfl cW (by simp [dbW]) rfl rfl aW (by simp [dbW])
      rfl rfl rfl).1.1,
   (C2_sparse_update_frame dbW updateCampaignInW updateAdCopyInW "u1" 5 rfl cW
      (by simp [dbW]) rfl rfl rfl cW (by simp [dbW]) rfl rfl aW (by simp [dbW])
      rfl rfl rfl).1.2.1⟩

/-! Section: More helper lemmas -/

theorem validateDeleteAdCopy_ok (i : DeleteAdCopyInput)
    (h : validateDeleteAdCopy i = .ok ()) :
    1 ≤ i.id.length ∧ 1 ≤ i.campaignId.length := by
  by_cases hc : 1 ≤ i.id.length ∧ 1 ≤ i.campaignId.length
  · exact hc
  · simp [validateDeleteAdCopy, hc] at h

theorem validateUpdateAdCopy_ok (i : UpdateAdCopyInput)
    (h : validateUpdateAdCopy i = .ok ()) :
    1 ≤ i.id.length ∧ 1 ≤ i.campaignId.length := by
  by_cases hc : 1 ≤ i.id.length ∧ 1 ≤ i.campaignId.length
  · exact hc
  · simp [validateUpdateAdCopy, hc] at h

theorem length_filter_split {α : Type} (p q : α → Bool) (l : List α) :
    (l.filter q).length
      = ((l.filter (fun x => !(p x))).filter q).length
        + ((l.filter p).filter q).length := by
  induction l with
  | nil => simp
  | cons x xs ih =>
    by_cases hp : p x = true <;> by_cases hq : q x = true <;>
      simp [List.filter_cons, hp, hq, ih] <;> omega

/-! Section: C5: the order in which the ownership guards run -/

/-- C5 counterexample: with both the ad-copy id and the campaign id
missing, updateAdCopy reports the campaign link, not the more specific
ad-copy link, so the guards do not run from the most specific resource to
the root. -/
theorem C5_counterexample :
    updateAdCopy missingUpdateAdCopyInW (some "u1") dbW 3
      = (.error ⟨.NOT_FOUND, "Campaign not found."⟩, dbW) ∧
    ("Campaign not found." : String) ≠ "Ad copy not found." :=
  ⟨rfl, by decide⟩

/-- Claim C5 (amended): updateAdCopy and deleteAdCopy run the campaign
guard first and fail with its NOT_FOUND whenever the campaign link is
broken, regardless of the ad-copy state; logAdPerformance and
listAdPerformance run the ad-copy guard first, failing with its
NOT_FOUND when the ad-copy link is broken, and with the campaign
NOT_FOUND when the ad copy resolves but its campaign link is broken. -/
theorem C5_guard_order (d : DB) (j : UpdateAdCopyInput) (idel : DeleteAdCopyInput)
    (ip : LogAdPerformanceInput) (il : ListAdPerformanceInput) (u genId : String)
    (now : Nat)
    (hvj : validateUpdateAdCopy j = .ok ()) (hvd : validateDeleteAdCopy idel = .ok ())
    (hvp : 1 ≤ ip.adCopyId.length) (hvl : 1 ≤ il.adCopyId.length) :
    ((∀ c ∈ d.campaigns, c.id = j.campaignId → c.userId ≠ u) →
      updateAdCopy j (some u) d now
        = (.error ⟨.NOT_FOUND, "Campaign not found."⟩, d)) ∧
    ((∀ c ∈ d.campaigns, c.id = idel.campaignId → c.userId ≠ u) →
      deleteAdCopy idel (some u) d
        = (.error ⟨.NOT_FOUND, "Campaign not found."⟩, d)) ∧
    ((∀ a ∈ d.adCopies, a.id = ip.adCopyId → a.userId ≠ u) →
      logAdPerformance ip (some u) d genId now
        = (.error ⟨.NOT_FOUND, "Ad copy not found."⟩, d)) ∧
    (∀ a0, getOwnedAdCopy ip.adCopyId u d = .ok a0 →
      (∀ c ∈ d.campaigns, c.id = a0.campaignId → c.userId ≠ u) →
      logAdPerformance ip (some u) d genId now
        = (.error ⟨.NOT_FOUND, "Campaign not found."⟩, d)) ∧
    ((∀ a ∈ d.adCopies, a.id = il.adCopyId → a.userId ≠ u) →
      listAdPerformance il (some u) d
        = (.error ⟨.NOT_FOUND, "Ad copy not found."⟩, d)) ∧
    (∀ a0, getOwnedAdCopy il.adCopyId u d = .ok a0 →
      (∀ c ∈ d.campaigns, c.id = a0.campaignId → c.userId ≠ u) →
      listAdPerformance il (some u) d
        = (.error ⟨.NOT_FOUND, "Campaign not found."⟩, d)) := by
  refine ⟨?_, ?_, ?_, ?_, ?_, ?_⟩
  · intro h
    simp [updateAdCopy, hvj, requireUser, getOwnedCampaign_fail _ _ _ h]
  · intro h
    simp [deleteAdCopy, hvd, requireUser, getOwnedCampaign_fail _ _ _ h]
  · intro h
    simp [logAdPerformance, hvp, requireUser, getOwnedAdCopy_fail _ _ _ h]
  · intro a0 hga hc
    simp [logAdPerformance, hvp, requireUser, hga, getOwnedCampaign_fail _ _ _ hc]
  · intro h
    simp [listAdPerformance, hvl, requireUser, getOwnedAdCopy_fail _ _ _ h]
  · intro a0 hga hc
    simp [listAdPerformance, hvl, requireUser, hga, getOwnedCampaign_fail _ _ _ hc]

theorem C5_guard_order_witness :
    updateAdCopy updateAdCopyInW (some "u2") dbW 3
      = (.error ⟨.NOT_FOUND, "Campaign not found."⟩, dbW) :=
  (C5_guard_order dbW updateAdCopyInW deleteAdCopyInW logAdPerformanceInW
    listAdPerformanceInW "u2" "g1" 3 rfl rfl (by decide) (by decide)).1 (by decide)

/-! Section: C4: which optional fields a performance record stores -/

/-- C4 counterexample: logging with date omitted stores date defaulted to
the operation clock, not absent — the single stored record of the run has
date some 42. -/
theorem C4_counterexample :
    (logAdPerformance logAdPerformanceInW (some "u1") dbW "p1" 42).2.performance.map
        PerformanceRecord.date = [some 42] ∧
    (some 42 : Option Nat) ≠ none :=
  ⟨rfl, by decide⟩

/-- Claim C4 (amended): a logAdPerformance call stores exactly one new
record whose impressions, clicks, conversions, spend, currency and notes
are exactly the supplied values — absent when omitted — while date, when
omitted, is defaulted to the operation clock instead of being stored
absent; listAdPerformance then returns the stored records for that ad
copy, exactly the one new record when none existed before. -/
theorem C4_log_performance_fields (d : DB) (i : LogAdPerformanceInput) (u genId : String)
    (now : Nat) (hv : 1 ≤ i.adCopyId.length)
    (a0 : AdCopy) (hga : getOwnedAdCopy i.adCopyId u d = .ok a0)
    (c0 : Campaign) (hc0 : c0 ∈ d.campaigns) (hc01 : c0.id = a0.campaignId)
    (hc02 : c0.userId = u) :
    logAdPerformance i (some u) d genId now
        = (.ok (some (insertedPerformance i genId now)),
           { d with performance := d.performance ++ [insertedPerformance i genId now] }) ∧
    (insertedPerformance i genId now).impressions = i.impressions ∧
    (insertedPerformance i genId now).clicks = i.clicks ∧
    (insertedPerformance i genId now).conversions = i.conversions ∧
    (insertedPerformance i genId now).spend = i.spend ∧
    (insertedPerformance i genId now).currency = i.currency ∧
    (insertedPerformance i genId now).notes = i.notes ∧
    (i.date = none → (insertedPerformance i genId now).date = some now) ∧
    (∀ v, i.date = some v → (insertedPerformance i genId now).date = some v) ∧
    (∃ items,
      (listAdPerformance ⟨i.adCopyId⟩ (some u)
          (logAdPerformance i (some u) d genId now).2).1 = .ok (items, items.length) ∧
      insertedPerformance i genId now ∈ items ∧
      (d.performance.filter (fun p => p.adCopyId == i.adCopyId) = [] →
        items = [insertedPerformance i genId now])) := by
  obtain ⟨b, hbr, -⟩ := getOwnedCampaign_ok a0.campaignId u d c0 hc0 hc01 hc02
  have hred : logAdPerformance i (some u) d genId now
      = (.ok (some (insertedPerformance i genId now)),
         { d with performance := d.performance ++ [insertedPerformance i genId now] }) := by
    simp [logAdPerformance, hv, requireUser, hga, hbr]
  have hga2 : getOwnedAdCopy i.adCopyId u
      { d with performance := d.performance ++ [insertedPerformance i genId now] }
        = .ok a0 := hga
  have hbr2 : getOwnedCampaign a0.campaignId u
      { d with performance := d.performance ++ [insertedPerformance i genId now] }
        = .ok b := hbr
  refine ⟨hred, rfl, rfl, rfl, rfl, rfl, rfl, ?_, ?_, ?_⟩
  · intro h
    simp [insertedPerformance, h]
  · intro v h
    simp [insertedPerformance, h]
  · refine ⟨(d.performance ++ [insertedPerformance i genId now]).filter
        (fun p => p.adCopyId == i.adCopyId), ?_, ?_, ?_⟩
    · rw [hred]
      simp [listAdPerformance, hv, requireUser, hga2, hbr2]
    · exact List.mem_filter.mpr
        ⟨List.mem_append_right _ (by simp), by simp [insertedPerformance]⟩
    · intro hempty
      rw [List.filter_append, hempty]
      simp [insertedPerformance]

theorem C4_log_performance_fields_witness :
    logAdPerformance logAdPerformanceInW (some "u1") dbW "p1" 42
      = (.ok (some (insertedPerformance logAdPerformanceInW "p1" 42)),
         { dbW with
            performance := dbW.performance ++ [insertedPerformance logAdPerformanceInW "p1" 42] }) :=
  (C4_log_performance_fields dbW logAdPerformanceInW "u1" "p1" 42 (by decide)
    aW rfl cW (by simp [dbW]) rfl rfl).1

/-! Section: C6: deleteAdCopy semantics -/

/-- Claim C6: with the supplied campaign owned by the acting user,
deleteAdCopy fails NOT_FOUND when no ad copy matches id, campaignId and
userId — covering both a non-existent id and an id owned by another user,
zero affected rows being the one failure signal — and the store is
unchanged; when exactly one owned row matches, it succeeds, removes
exactly that row, and the listAdCopies total for that campaign drops by
exactly one. -/
theorem C6_delete_ad_copy (d : DB) (i : DeleteAdCopyInput) (u : String)
    (hv : validateDeleteAdCopy i = .ok ())
    (c0 : Campaign) (hc0 : c0 ∈ d.campaigns) (hc01 : c0.id = i.campaignId)
    (hc02 : c0.userId = u) :
    (d.adCopies.filter (deleteAdCopyPred i u) = [] →
      deleteAdCopy i (some u) d = (.error ⟨.NOT_FOUND, "Ad copy not found."⟩, d)) ∧
    (∀ a ∈ d.adCopies, a.id = i.id → a.userId ≠ u →
      d.adCopies.filter (deleteAdCopyPred i u) = [] →
      deleteAdCopy i (some u) d = (.error ⟨.NOT_FOUND, "Ad copy not found."⟩, d) ∧
        a ∈ (deleteAdCopy i (some u) d).2.adCopies) ∧
    (∀ a, d.adCopies.filter (deleteAdCopyPred i u) = [a] →
      (deleteAdCopy i (some u) d).1 = .ok () ∧
      (deleteAdCopy i (some u) d).2.adCopies.length + 1 = d.adCopies.length ∧
      (∃ items1 items2,
        (listAdCopies ⟨i.campaignId⟩ (some u) d).1 = .ok (items1, items1.length) ∧
        (listAdCopies ⟨i.campaignId⟩ (some u) (deleteAdCopy i (some u) d).2).1
          = .ok (items2, items2.length) ∧
        items2.length + 1 = items1.length)) := by
  obtain ⟨b, hb, -⟩ := getOwnedCampaign_ok i.campaignId u d c0 hc0 hc01 hc02
  obtain ⟨hidlen, hcidlen⟩ := validateDeleteAdCopy_ok i hv
  have hnil : ∀ (hfil : d.adCopies.filter (deleteAdCopyPred i u) = []),
      deleteAdCopy i (some u) d = (.error ⟨.NOT_FOUND, "Ad copy not found."⟩, d) := by
    intro hfil
    have hall : ∀ a ∈ d.adCopies, deleteAdCopyPred i u a = false := by
      intro a ha
      simpa using List.filter_eq_nil_iff.mp hfil a ha
    have hkeep : d.adCopies.filter (fun a => !(deleteAdCopyPred i u a)) = d.adCopies :=
      List.filter_eq_self.mpr (fun a ha => by simp [hall a ha])
    simp [deleteAdCopy, hv, requireUser, hb, hfil, hkeep]
  refine ⟨hnil, ?_, ?_⟩
  · intro a ha haid hau hfil
    exact ⟨hnil hfil, by rw [hnil hfil]; exact ha⟩
  · intro a hfil
    have hamem : a ∈ d.adCopies.filter (deleteAdCopyPred i u) := by
      rw [hfil]; simp
    have hpa := (List.mem_filter.mp hamem).2
    have hqa : (a.campaignId == i.campaignId && a.userId == u) = true := by
      simp only [deleteAdCopyPred, Bool.and_eq_true, beq_iff_eq] at hpa
      simp [hpa.1.2, hpa.2]
    have hred : deleteAdCopy i (some u) d
        = (.ok (),
           { d with adCopies := d.adCopies.filter (fun x => !(deleteAdCopyPred i u x)) }) := by
      simp [deleteAdCopy, hv, requireUser, hb, hfil]
    have hb2 : getOwnedCampaign i.campaignId u
        { d with adCopies := d.adCopies.filter (fun x => !(deleteAdCopyPred i u x)) }
          = .ok b := hb
    refine ⟨by rw [hred], ?_, ?_⟩
    · have hsplit := length_filter_split (deleteAdCopyPred i u) (fun _ => true) d.adCopies
      rw [hfil] at hsplit
      simp only [List.filter_true] at hsplit
      rw [hred]
      simp only [List.length_cons, List.length_nil] at hsplit ⊢
      omega
    · refine ⟨d.adCopies.filter (fun x => x.campaignId == i.campaignId && x.userId == u),
        (d.adCopies.filter (fun x => !(deleteAdCopyPred i u x))).filter
          (fun x => x.campaignId == i.campaignId && x.userId == u), ?_, ?_, ?_⟩
      · simp [listAdCopies, hcidlen, requireUser, hb]
      · rw [hred]
        simp [listAdCopies, hcidlen, requireUser, hb2]
      · have hsplit2 := length_filter_split (deleteAdCopyPred i u)
          (fun x => x.campaignId == i.campaignId && x.userId == u) d.adCopies
        rw [hfil] at hsplit2
        rw [List.filter_cons, if_pos hqa] at hsplit2
        simp only [List.filter_nil, List.length_cons, List.length_nil] at hsplit2
        omega

theorem C6_delete_ad_copy_witness :
    (deleteAdCopy deleteAdCopyInW (some "u1") dbW).1 = .ok () ∧
    (deleteAdCopy deleteAdCopyInW (some "u1") dbW).2.adCopies.length + 1
      = dbW.adCopies.length :=
  ⟨((C6_delete_ad_copy dbW deleteAdCopyInW "u1" rfl cW (by simp [dbW]) rfl rfl).2.2
      aW (by decide)).1,
   ((C6_delete_ad_copy dbW deleteAdCopyInW "u1" rfl cW (by simp [dbW]) rfl rfl).2.2
      aW (by decide)).2.1⟩

/-! Section: C10: the target must match id, campaignId and userId jointly -/

/-- Claim C10: when the acting user owns the supplied campaign and also
owns an ad copy with the supplied id, but that ad copy belongs to a
different campaign, updateAdCopy and deleteAdCopy both fail NOT_FOUND and
leave the store unchanged: the target must match id, campaignId and
userId simultaneously. -/
theorem C10_full_key_match_required (d : DB) (j : UpdateAdCopyInput) (u : String)
    (now : Nat)
    (hvj : validateUpdateAdCopy j = .ok ())
    (c0 : Campaign) (hc0 : c0 ∈ d.campaigns) (hc01 : c0.id = j.campaignId)
    (hc02 : c0.userId = u)
    (a : AdCopy) (ha : a ∈ d.adCopies) (ha1 : a.id = j.id) (ha2 : a.userId = u)
    (hmis : a.campaignId ≠ j.campaignId)
    (huniq : ∀ b ∈ d.adCopies, b.id = j.id → b = a) :
    updateAdCopy j (some u) d now = (.error ⟨.NOT_FOUND, "Ad copy not found."⟩, d) ∧
    deleteAdCopy ⟨j.id, j.campaignId⟩ (some u) d
      = (.error ⟨.NOT_FOUND, "Ad copy not found."⟩, d) := by
  obtain ⟨b, hb, -⟩ := getOwnedCampaign_ok j.campaignId u d c0 hc0 hc01 hc02
  have hnomatch : ∀ x ∈ d.adCopies,
      (x.id == j.id && x.campaignId == j.campaignId && x.userId == u) = false := by
    intro x hx
    by_cases hxid : x.id = j.id
    · have hxa := huniq x hx hxid
      subst hxa
      have : (x.campaignId == j.campaignId) = false := by
        simp [hmis]
      simp [this]
    · simp [hxid]
  have hfilnil : d.adCopies.filter
      (fun x => x.id == j.id && x.campaignId == j.campaignId && x.userId == u) = [] := by
    rw [List.filter_eq_nil_iff]
    intro x hx
    simp [hnomatch x hx]
  constructor
  · simp [updateAdCopy, hvj, requireUser, hb, hfilnil]
  · obtain ⟨h1, h2⟩ := validateUpdateAdCopy_ok j hvj
    have hvd : validateDeleteAdCopy ⟨j.id, j.campaignId⟩ = .ok () := by
      simp [validateDeleteAdCopy, h1, h2]
    have hfil0 : d.adCopies.filter (deleteAdCopyPred ⟨j.id, j.campaignId⟩ u) = [] := by
      rw [List.filter_eq_nil_iff]
      intro x hx
      simp only [deleteAdCopyPred]
      simp [hnomatch x hx]
    have hkeep : d.adCopies.filter
        (fun x => !(deleteAdCopyPred ⟨j.id, j.campaignId⟩ u x)) = d.adCopies := by
      refine List.filter_eq_self.mpr (fun x hx => ?_)
      simp only [deleteAdCopyPred]
      simp [hnomatch x hx]
    simp [deleteAdCopy, hvd, requireUser, hb, hfil0, hkeep]

theorem C10_full_key_match_required_witness :
    updateAdCopy mismatchUpdateAdCopyInW (some "u1") dbW2 4
      = (.error ⟨.NOT_FOUND, "Ad copy not found."⟩, dbW2) :=
  (C10_full_key_match_required dbW2 mismatchUpdateAdCopyInW "u1" 4 rfl cW2
    (by simp [dbW2]) rfl rfl aW (by simp [dbW2]) rfl rfl (by decide) (by decide)).1

end AdCopyAssistant
